import Mathlib

/-!
Verification of the battery telemetry pipeline: the wire codec
(`struct.pack`/`struct.unpack` with format `<ffff` in
`src/battery-simulator/bat.py` and `src/battery-simulator/receiver.py`),
the anomaly classifier of the specification, the forwarder loop of
`receiver.py`, and the HTTP ingestion endpoint of `client/api/index.py`.

Floating-point field values travel the pipeline unchanged, so each
float32 is represented by its 32-bit pattern (a `Nat` below `2 ^ 32`);
a byte is a `Nat` below `256`.
-/

namespace BatteryTelemetry

/-- One telemetry record: four float32 fields, each represented by its
32-bit IEEE-754 pattern.  Field order follows `struct.pack('<ffff',
time_s, pack_voltage_v, pack_current_a, cell_temp_c)` in `bat.py`. -/
structure TelemetryRecord where
  timestamp : Nat
  pack_voltage : Nat
  pack_current : Nat
  cell_temperature : Nat
deriving DecidableEq

/-- All four fields are genuine 32-bit patterns. -/
def ValidRecord (r : TelemetryRecord) : Prop :=
  r.timestamp < 4294967296 ∧ r.pack_voltage < 4294967296 ∧
  r.pack_current < 4294967296 ∧ r.cell_temperature < 4294967296

instance (r : TelemetryRecord) : Decidable (ValidRecord r) := by
  unfold ValidRecord; infer_instance

/-- The four little-endian bytes of a 32-bit word, least significant
first: how `struct.pack('<f', x)` lays out the bits of `x`. -/
def word32ToLEBytes (w : Nat) : List Nat :=
  [w % 256, w / 256 % 256, w / 65536 % 256, w / 16777216 % 256]

/-- Read a little-endian byte list back into a word. -/
def leWord (bs : List Nat) : Nat :=
  bs.foldr (fun b acc => b + 256 * acc) 0

/-- `struct.pack('<ffff', t, v, i, c)`: the 16-byte wire image of a
record, the four fields in order, each as four little-endian bytes,
with no header, length prefix, checksum or version tag. -/
def encode (r : TelemetryRecord) : List Nat :=
  word32ToLEBytes r.timestamp ++ word32ToLEBytes r.pack_voltage ++
  word32ToLEBytes r.pack_current ++ word32ToLEBytes r.cell_temperature

/-- The failure `struct.unpack('<ffff', data)` raises when `data` is
not exactly 16 bytes; the specification names it `FramingError`. -/
inductive FramingError where
  | lengthMismatch (got : Nat)
deriving DecidableEq

/-- `struct.unpack('<ffff', bs)` in `receiver.py`: succeeds exactly on
16-byte inputs, reading the four fields back in wire order; no field
range is validated.  Any other length raises. -/
def decode (bs : List Nat) : Except FramingError TelemetryRecord :=
  if bs.length = 16 then
    Except.ok
      { timestamp := leWord (bs.take 4)
      , pack_voltage := leWord ((bs.drop 4).take 4)
      , pack_current := leWord ((bs.drop 8).take 4)
      , cell_temperature := leWord ((bs.drop 12).take 4) }
  else
    Except.error (FramingError.lengthMismatch bs.length)

lemma leWord_word32ToLEBytes (w : Nat) (h : w < 4294967296) :
    leWord (word32ToLEBytes w) = w := by
  simp only [leWord, word32ToLEBytes, List.foldr]
  omega

lemma encode_eq_list (r : TelemetryRecord) :
    encode r =
      [r.timestamp % 256, r.timestamp / 256 % 256,
       r.timestamp / 65536 % 256, r.timestamp / 16777216 % 256,
       r.pack_voltage % 256, r.pack_voltage / 256 % 256,
       r.pack_voltage / 65536 % 256, r.pack_voltage / 16777216 % 256,
       r.pack_current % 256, r.pack_current / 256 % 256,
       r.pack_current / 65536 % 256, r.pack_current / 16777216 % 256,
       r.cell_temperature % 256, r.cell_temperature / 256 % 256,
       r.cell_temperature / 65536 % 256,
       r.cell_temperature / 16777216 % 256] := by
  simp [encode, word32ToLEBytes]

lemma decode_of_length16 (bs : List Nat) (h : bs.length = 16) :
    decode bs = Except.ok
      { timestamp := leWord (bs.take 4)
      , pack_voltage := leWord ((bs.drop 4).take 4)
      , pack_current := leWord ((bs.drop 8).take 4)
      , cell_temperature := leWord ((bs.drop 12).take 4) } := by
  unfold decode
  rw [if_pos h]

lemma decode_encode (r : TelemetryRecord) (h : ValidRecord r) :
    decode (encode r) = Except.ok r := by
  obtain ⟨t, v, i, c⟩ := r
  obtain ⟨h1, h2, h3, h4⟩ := h
  have ht1 : t < 4294967296 := h1
  have ht2 : v < 4294967296 := h2
  have ht3 : i < 4294967296 := h3
  have ht4 : c < 4294967296 := h4
  rw [encode_eq_list]
  simp only [decode, List.length, List.take, List.drop, leWord,
    List.foldr, if_pos]
  simp only [Except.ok.injEq, TelemetryRecord.mk.injEq]
  refine ⟨by omega, by omega, by omega, by omega⟩

/-- Claim C1: decoding the 16-byte encoding of any record with valid
float32 (32-bit) fields yields the same record bit-for-bit. -/
theorem decode_encode_roundtrip (r : TelemetryRecord) (h : ValidRecord r) :
    decode (encode r) = Except.ok r :=
  decode_encode r h

/-- Witness for C1 at a concrete record. -/
theorem decode_encode_roundtrip_witness :
    decode (encode ⟨1, 2, 3, 4⟩) = Except.ok ⟨1, 2, 3, 4⟩ :=
  decode_encode_roundtrip ⟨1, 2, 3, 4⟩ (by decide)

/-- Claim C2: on any input whose length is not 16 bytes `decode` fails
with a `FramingError` and produces no record (no partial
interpretation); on any 16-byte input it succeeds, with no field-range
validation. -/
theorem decode_framing (bs : List Nat) :
    (bs.length ≠ 16 →
      decode bs = Except.error (FramingError.lengthMismatch bs.length)) ∧
    (bs.length = 16 → ∃ r, decode bs = Except.ok r) := by
  constructor
  · intro h
    simp [decode, h]
  · intro h
    exact ⟨_, decode_of_length16 bs h⟩

/-- Witness for C2: a 3-byte input is rejected, a 16-byte all-zero
input is accepted. -/
theorem decode_framing_witness :
    decode [7, 7, 7] = Except.error (FramingError.lengthMismatch 3) ∧
    ∃ r, decode (List.replicate 16 0) = Except.ok r :=
  ⟨(decode_framing [7, 7, 7]).1 (by decide),
   (decode_framing (List.replicate 16 0)).2 (by decide)⟩

/-- The six warning labels of the anomaly classifier, the enumeration
matched by the `(Low|High) (Voltage|Temperature|Current)` query of
`get_anomalies` in `client/api/index.py`. -/
inductive AnomalyWarning where
  | lowVoltage
  | highVoltage
  | lowCurrent
  | highCurrent
  | lowTemperature
  | highTemperature
deriving DecidableEq

/-- A decoded reading as the classifier sees it: the numeric values of
the three measured fields (exact rationals standing for the float
values). -/
structure Reading where
  pack_voltage : ℚ
  pack_current : ℚ
  cell_temp : ℚ
deriving DecidableEq

/-- Modelled from the spec: the anomaly classifier of section 4.2.  The
code that produces the `anomaly_warning` field consumed by
`get_anomalies` in `client/api/index.py` is not among the provided
sources; the spec gives six inclusive threshold rules tried in a fixed
order with the first match winning, and no warning otherwise. -/
def classify (r : Reading) : Option AnomalyWarning :=
  if r.pack_voltage ≤ 50 then some AnomalyWarning.lowVoltage
  else if 500 ≤ r.pack_voltage then some AnomalyWarning.highVoltage
  else if r.pack_current ≤ 0 then some AnomalyWarning.lowCurrent
  else if 100 ≤ r.pack_current then some AnomalyWarning.highCurrent
  else if r.cell_temp ≤ -20 then some AnomalyWarning.lowTemperature
  else if 60 ≤ r.cell_temp then some AnomalyWarning.highTemperature
  else none

/-- Claim C3: the classifier yields at most one warning (its result is
a single `Option`), and the low-voltage rule precedes the high-current
rule: any reading with `pack_voltage ≤ 50` and `pack_current ≥ 100` is
classified as low voltage, not high current. -/
theorem classify_low_voltage_precedes_high_current (r : Reading)
    (hv : r.pack_voltage ≤ 50) (hi : 100 ≤ r.pack_current) :
    classify r = some AnomalyWarning.lowVoltage ∧
    classify r ≠ some AnomalyWarning.highCurrent := by
  refine ⟨?_, ?_⟩ <;> simp [classify, hv]

/-- Witness for C3 at voltage 42.3 V, current 150 A. -/
theorem classify_low_voltage_precedes_high_current_witness :
    classify ⟨423 / 10, 150, 25⟩ = some AnomalyWarning.lowVoltage ∧
    classify ⟨423 / 10, 150, 25⟩ ≠ some AnomalyWarning.highCurrent :=
  classify_low_voltage_precedes_high_current ⟨423 / 10, 150, 25⟩
    (by norm_num) (by norm_num)

/-- Claim C4: the thresholds are inclusive, so each boundary value is
itself classified (voltage 50 low, voltage 500 high, current 0 low,
current 100 high, temperature -20 low, temperature 60 high), and a
reading strictly inside every threshold (355.2 V, 25 A, 25 C) gets no
warning. -/
theorem classify_boundaries_inclusive :
    classify ⟨50, 25, 25⟩ = some AnomalyWarning.lowVoltage ∧
    classify ⟨500, 25, 25⟩ = some AnomalyWarning.highVoltage ∧
    classify ⟨1776 / 5, 0, 25⟩ = some AnomalyWarning.lowCurrent ∧
    classify ⟨1776 / 5, 100, 25⟩ = some AnomalyWarning.highCurrent ∧
    classify ⟨1776 / 5, 25, -20⟩ = some AnomalyWarning.lowTemperature ∧
    classify ⟨1776 / 5, 25, 60⟩ = some AnomalyWarning.highTemperature ∧
    classify ⟨1776 / 5, 25, 25⟩ = none := by
  refine ⟨?_, ?_, ?_, ?_, ?_, ?_, ?_⟩ <;> norm_num [classify]

/-- A JSON value in the payload posted to the API: a number (a clock
reading or a forwarded float, identified by its representation) or a
string. -/
inductive JVal where
  | num (n : Nat)
  | str (s : String)
deriving DecidableEq

/-- The JSON body of one POST to the API: an ordered key-value list. -/
abbrev Payload : Type := List (String × JVal)

/-- `send_to_api(data, source)` in `receiver.py`: builds the JSON body
from the decoded tuple, taking `timestamp` from the local clock
(`time.time()`, the value `now`) and the remaining fields from indices
1..3 of the tuple; the decoded timestamp `data[0]` is not used, and no
warning or classification key exists. -/
def sendToApi (now : Nat) (data : TelemetryRecord) (source : String) :
    Payload :=
  [("timestamp", JVal.num now),
   ("pack_voltage", JVal.num data.pack_voltage),
   ("pack_current", JVal.num data.pack_current),
   ("cell_temp", JVal.num data.cell_temperature),
   ("source", JVal.str source)]

/-- What `requests.post` comes back with inside `send_to_api`: an HTTP
response with some status code, or a raised exception. -/
inductive SinkOutcome where
  | resp (code : Nat)
  | exn
deriving DecidableEq

/-- The operator-visible events the forwarder prints. -/
inductive LogEvent where
  | receivedData (r : TelemetryRecord)
  | sentOk
  | apiError (code : Nat)
  | sendFailed
  | connectionError (e : FramingError)
deriving DecidableEq

/-- The print in `send_to_api` after the post: success for a 200
response, an API-error line otherwise, and the except branch for a
raised exception.  In every case `send_to_api` returns normally. -/
def sendToApiLog (outcome : SinkOutcome) : LogEvent :=
  match outcome with
  | SinkOutcome.resp code =>
      if code = 200 then LogEvent.sentOk else LogEvent.apiError code
  | SinkOutcome.exn => LogEvent.sendFailed

/-- How one accepted connection ends in `receiver.py`: `recv` returned
an empty byte string (peer closed, `break`), or `struct.unpack` raised
and the outer `except` caught it, dropping the connection. -/
inductive ConnResult where
  | closedCleanly
  | droppedOnError (e : FramingError)
deriving DecidableEq

/-- The observable outcome of servicing one connection: the payloads
posted to the sink in order, the log lines, and how the connection
ended.  After either ending the outer `while True` loop accepts again
(the forwarder is back in Listening). -/
structure ConnRun where
  posts : List Payload
  log : List LogEvent
  result : ConnResult
deriving DecidableEq

/-- The inner `while True` read loop of `receiver.py` over one accepted
connection.  `chunks` lists what each `conn.recv(16)` call returns, the
peer closing once they are exhausted; `clock k` is the `time.time()`
value at the k-th forward of this run and `sink k` the outcome of the
k-th post.  An empty read breaks cleanly; a read that `struct.unpack`
rejects raises, is caught by the outer `except` (logged), and drops the
connection; a full record is printed and forwarded. -/
def runConn (clock : Nat → Nat) (sink : Nat → SinkOutcome) :
    Nat → List (List Nat) → ConnRun
  | _, [] => ⟨[], [], ConnResult.closedCleanly⟩
  | k, chunk :: rest =>
    if chunk = [] then ⟨[], [], ConnResult.closedCleanly⟩
    else
      match decode chunk with
      | Except.error e =>
          ⟨[], [LogEvent.connectionError e], ConnResult.droppedOnError e⟩
      | Except.ok r =>
          let tail := runConn clock sink (k + 1) rest
          ⟨sendToApi (clock k) r "Module" :: tail.posts,
           LogEvent.receivedData r :: sendToApiLog (sink k) :: tail.log,
           tail.result⟩

/-- The outer accept loop: connections are serviced one at a time, each
to completion, and after a clean close or a caught error the forwarder
accepts the next one.  The clock index keeps counting forwards across
connections. -/
def runForwarder (clock : Nat → Nat) (sink : Nat → SinkOutcome) :
    Nat → List (List (List Nat)) → List Payload × List LogEvent
  | _, [] => ([], [])
  | k, conn :: conns =>
    let cr := runConn clock sink k conn
    let rest := runForwarder clock sink (k + cr.posts.length) conns
    (cr.posts ++ rest.1, cr.log ++ rest.2)

/-- How many full records a connection delivers before closing or
losing framing: the number of leading 16-byte reads. -/
def numRecords : List (List Nat) → Nat
  | [] => 0
  | chunk :: rest =>
    if chunk = [] then 0
    else if chunk.length = 16 then numRecords rest + 1
    else 0

lemma length_of_decode_ok (c : List Nat) (r : TelemetryRecord)
    (h : decode c = Except.ok r) : c.length = 16 := by
  by_contra hne
  simp [decode, hne] at h

lemma length_of_decode_error (c : List Nat) (e : FramingError)
    (h : decode c = Except.error e) : c.length ≠ 16 := by
  intro h16
  rw [decode_of_length16 c h16] at h
  cases h

lemma runConn_nil (clock : Nat → Nat) (sink : Nat → SinkOutcome)
    (k : Nat) :
    runConn clock sink k [] = ⟨[], [], ConnResult.closedCleanly⟩ := rfl

lemma runConn_cons_ok (clock : Nat → Nat) (sink : Nat → SinkOutcome)
    (k : Nat) (chunk : List Nat) (rest : List (List Nat))
    (r : TelemetryRecord) (h : decode chunk = Except.ok r) :
    runConn clock sink k (chunk :: rest) =
      ⟨sendToApi (clock k) r "Module" ::
         (runConn clock sink (k + 1) rest).posts,
       LogEvent.receivedData r :: sendToApiLog (sink k) ::
         (runConn clock sink (k + 1) rest).log,
       (runConn clock sink (k + 1) rest).result⟩ := by
  have hlen := length_of_decode_ok chunk r h
  have hne : chunk ≠ [] := by
    intro hc
    rw [hc] at hlen
    cases hlen
  simp [runConn, hne, h]

lemma runConn_cons_error (clock : Nat → Nat) (sink : Nat → SinkOutcome)
    (k : Nat) (chunk : List Nat) (rest : List (List Nat))
    (hne : chunk ≠ []) (hlen : chunk.length ≠ 16) :
    runConn clock sink k (chunk :: rest) =
      ⟨[], [LogEvent.connectionError (FramingError.lengthMismatch chunk.length)],
       ConnResult.droppedOnError (FramingError.lengthMismatch chunk.length)⟩ := by
  have hdec : decode chunk =
      Except.error (FramingError.lengthMismatch chunk.length) := by
    simp [decode, hlen]
  simp [runConn, hne, hdec]

/-- Claim C5 counterexample: on a concrete connection delivering three
16-byte records (under clock 999 and an always-200 sink), every item
the sink receives has exactly the keys `timestamp`, `pack_voltage`,
`pack_current`, `cell_temp`, `source`; no warning or classification
component is among them, so the sink does not receive (record, warning)
pairs — and the `timestamp` delivered is the local clock value 999, not
the wire timestamp 0 of the records. -/
theorem sink_items_carry_no_warning :
    ((runConn (fun _ => 999) (fun _ => SinkOutcome.resp 200) 0
        [List.replicate 16 0, List.replicate 16 1,
         List.replicate 16 2]).posts.map (fun p => p.map Prod.fst)) =
      [["timestamp", "pack_voltage", "pack_current", "cell_temp", "source"],
       ["timestamp", "pack_voltage", "pack_current", "cell_temp", "source"],
       ["timestamp", "pack_voltage", "pack_current", "cell_temp", "source"]] ∧
    (["timestamp", "pack_voltage", "pack_current", "cell_temp",
      "source"].contains "warning" = false) ∧
    (["timestamp", "pack_voltage", "pack_current", "cell_temp",
      "source"].contains "anomaly_warning" = false) ∧
    ((runConn (fun _ => 999) (fun _ => SinkOutcome.resp 200) 0
        [List.replicate 16 0, List.replicate 16 1,
         List.replicate 16 2]).posts.head? =
      some [("timestamp", JVal.num 999), ("pack_voltage", JVal.num 0),
            ("pack_current", JVal.num 0), ("cell_temp", JVal.num 0),
            ("source", JVal.str "Module")]) := by
  refine ⟨?_, ?_, ?_, ?_⟩ <;> decide

/-- Claim C5 (amended): a connection that delivers exactly three
16-byte records and then closes makes the forwarder post exactly three
payloads, in send order, each built by `send_to_api` from the
corresponding decoded record; the connection ends cleanly and the
forwarder goes on to service the following connections (it is back in
Listening). -/
theorem three_records_then_close_delivery (clock : Nat → Nat)
    (sink : Nat → SinkOutcome) (c1 c2 c3 : List Nat)
    (r1 r2 r3 : TelemetryRecord) (conns : List (List (List Nat)))
    (h1 : decode c1 = Except.ok r1) (h2 : decode c2 = Except.ok r2)
    (h3 : decode c3 = Except.ok r3) :
    (runConn clock sink 0 [c1, c2, c3]).posts =
      [sendToApi (clock 0) r1 "Module", sendToApi (clock 1) r2 "Module",
       sendToApi (clock 2) r3 "Module"] ∧
    (runConn clock sink 0 [c1, c2, c3]).result =
      ConnResult.closedCleanly ∧
    (runForwarder clock sink 0 ([c1, c2, c3] :: conns)).1 =
      [sendToApi (clock 0) r1 "Module", sendToApi (clock 1) r2 "Module",
       sendToApi (clock 2) r3 "Module"] ++
        (runForwarder clock sink 3 conns).1 := by
  have e1 := runConn_cons_ok clock sink 0 c1 [c2, c3] r1 h1
  have e2 := runConn_cons_ok clock sink 1 c2 [c3] r2 h2
  have e3 := runConn_cons_ok clock sink 2 c3 [] r3 h3
  have erun : runConn clock sink 0 [c1, c2, c3] =
      ⟨[sendToApi (clock 0) r1 "Module", sendToApi (clock 1) r2 "Module",
        sendToApi (clock 2) r3 "Module"],
       [LogEvent.receivedData r1, sendToApiLog (sink 0),
        LogEvent.receivedData r2, sendToApiLog (sink 1),
        LogEvent.receivedData r3, sendToApiLog (sink 2)],
       ConnResult.closedCleanly⟩ := by
    rw [e1, e2, e3, runConn_nil]
  refine ⟨by rw [erun], by rw [erun], ?_⟩
  simp [runForwarder, erun]

/-- Claim C6: a read that returns a nonempty byte string that is not a
full 16-byte record (for instance 8 bytes before the peer closes) makes
the forwarder forward nothing for it, log the failure, drop the
connection, and continue with the next connection (back to
Listening). -/
theorem short_read_drops_connection (clock : Nat → Nat)
    (sink : Nat → SinkOutcome) (k : Nat) (chunk : List Nat)
    (rest : List (List Nat)) (conns : List (List (List Nat)))
    (hne : chunk ≠ []) (hlen : chunk.length ≠ 16) :
    (runConn clock sink k (chunk :: rest)).posts = [] ∧
    (runConn clock sink k (chunk :: rest)).log =
      [LogEvent.connectionError (FramingError.lengthMismatch chunk.length)] ∧
    (runConn clock sink k (chunk :: rest)).result =
      ConnResult.droppedOnError (FramingError.lengthMismatch chunk.length) ∧
    (runForwarder clock sink k ((chunk :: rest) :: conns)).1 =
      (runForwarder clock sink k conns).1 := by
  have e := runConn_cons_error clock sink k chunk rest hne hlen
  refine ⟨by rw [e], by rw [e], by rw [e], ?_⟩
  simp only [runForwarder, e, List.length_nil, Nat.add_zero,
    List.nil_append]

/-- Witness for C6: the connection sends exactly 8 bytes then closes;
nothing is forwarded, the error is logged, the connection is dropped,
and the following connection is still serviced. -/
theorem short_read_drops_connection_witness :
    (runConn (fun _ => 0) (fun _ => SinkOutcome.resp 200) 0
      [List.replicate 8 0]).posts = [] ∧
    (runConn (fun _ => 0) (fun _ => SinkOutcome.resp 200) 0
      [List.replicate 8 0]).log =
      [LogEvent.connectionError (FramingError.lengthMismatch 8)] ∧
    (runConn (fun _ => 0) (fun _ => SinkOutcome.resp 200) 0
      [List.replicate 8 0]).result =
      ConnResult.droppedOnError (FramingError.lengthMismatch 8) ∧
    (runForwarder (fun _ => 0) (fun _ => SinkOutcome.resp 200) 0
      [[List.replicate 8 0], [List.replicate 16 0]]).1 =
      (runForwarder (fun _ => 0) (fun _ => SinkOutcome.resp 200) 0
        [[List.replicate 16 0]]).1 :=
  short_read_drops_connection (fun _ => 0) (fun _ => SinkOutcome.resp 200)
    0 (List.replicate 8 0) [] [[List.replicate 16 0]]
    (by decide) (by decide)

/-- Claim C7: the sink outcomes (non-200 responses or raised
exceptions) never change what the forwarder posts nor how the
connection ends — failures are absorbed inside `send_to_api`, never
propagated to the producer connection, and the read loop continues;
and every full record read is posted exactly once (best-effort,
at-most-once: no retry queue exists). -/
theorem sink_failure_containment (clock : Nat → Nat)
    (sink sink' : Nat → SinkOutcome) (k : Nat)
    (chunks : List (List Nat)) :
    (runConn clock sink k chunks).posts =
      (runConn clock sink' k chunks).posts ∧
    (runConn clock sink k chunks).result =
      (runConn clock sink' k chunks).result ∧
    (runConn clock sink k chunks).posts.length = numRecords chunks := by
  induction chunks generalizing k with
  | nil => simp [runConn, numRecords]
  | cons chunk rest ih =>
    by_cases hc : chunk = []
    · simp [runConn, numRecords, hc]
    · cases hdec : decode chunk with
      | error e =>
        have hlen : chunk.length ≠ 16 := length_of_decode_error chunk e hdec
        rw [runConn_cons_error clock sink k chunk rest hc hlen,
          runConn_cons_error clock sink' k chunk rest hc hlen]
        simp [numRecords, hc, hlen]
      | ok r =>
        rw [runConn_cons_ok clock sink k chunk rest r hdec,
          runConn_cons_ok clock sink' k chunk rest r hdec]
        have hlen : chunk.length = 16 := length_of_decode_ok chunk r hdec
        obtain ⟨ihp, ihr, ihl⟩ := ih (k + 1)
        have ihl2 : (runConn clock sink' (k + 1) rest).posts.length =
            numRecords rest := ihp ▸ ihl
        simp [numRecords, hc, hlen, ihp, ihr, ihl2]

/-- Claim C9: the payload posted for a decoded record carries the
decoded voltage, current and temperature under exactly the five keys
`timestamp`, `pack_voltage`, `pack_current`, `cell_temp`, `source`;
its `timestamp` is the local clock value at forwarding, the decoded
wire timestamp is discarded (the payload does not depend on it), no
warning or classification key exists, and the forwarder posts exactly
this payload for the first record of a connection. -/
theorem forwarded_payload_contents (now : Nat) (r : TelemetryRecord)
    (source : String) :
    (sendToApi now r source).map Prod.fst =
      ["timestamp", "pack_voltage", "pack_current", "cell_temp",
       "source"] ∧
    List.lookup "timestamp" (sendToApi now r source) =
      some (JVal.num now) ∧
    List.lookup "pack_voltage" (sendToApi now r source) =
      some (JVal.num r.pack_voltage) ∧
    List.lookup "pack_current" (sendToApi now r source) =
      some (JVal.num r.pack_current) ∧
    List.lookup "cell_temp" (sendToApi now r source) =
      some (JVal.num r.cell_temperature) ∧
    (∀ t, sendToApi now { r with timestamp := t } source =
      sendToApi now r source) ∧
    (∀ (clock : Nat → Nat) (sink : Nat → SinkOutcome) (k : Nat)
        (chunk : List Nat) (rest : List (List Nat))
        (r2 : TelemetryRecord), decode chunk = Except.ok r2 →
      (runConn clock sink k (chunk :: rest)).posts.head? =
        some (sendToApi (clock k) r2 "Module")) := by
  refine ⟨rfl, ?_, ?_, ?_, ?_, fun t => rfl, ?_⟩
  · simp [sendToApi, List.lookup]
  · simp [sendToApi, List.lookup]
  · simp [sendToApi, List.lookup]
  · simp [sendToApi, List.lookup]
  · intro clock sink k chunk rest r2 hdec
    rw [runConn_cons_ok clock sink k chunk rest r2 hdec]
    rfl

/-- Witness for C9 at concrete inputs: the posted timestamp is the
clock value, and the first post of a one-record connection is the
`send_to_api` payload of its decoded record. -/
theorem forwarded_payload_contents_witness :
    List.lookup "timestamp" (sendToApi 5 ⟨1, 2, 3, 4⟩ "Module") =
      some (JVal.num 5) ∧
    (runConn (fun _ => 5) (fun _ => SinkOutcome.resp 200) 0
      [List.replicate 16 0]).posts.head? =
      some (sendToApi 5 ⟨0, 0, 0, 0⟩ "Module") :=
  ⟨(forwarded_payload_contents 5 ⟨1, 2, 3, 4⟩ "Module").2.1,
   (forwarded_payload_contents 5 ⟨1, 2, 3, 4⟩ "Module").2.2.2.2.2.2
     (fun _ => 5) (fun _ => SinkOutcome.resp 200) 0
     (List.replicate 16 0) [] ⟨0, 0, 0, 0⟩ rfl⟩

/-- Witness for C5 (amended) at three concrete records. -/
theorem three_records_then_close_delivery_witness :
    (runConn (fun k => k) (fun _ => SinkOutcome.exn) 0
      [List.replicate 16 0, List.replicate 16 1,
       List.replicate 16 2]).result = ConnResult.closedCleanly :=
  (three_records_then_close_delivery (fun k => k)
    (fun _ => SinkOutcome.exn) (List.replicate 16 0)
    (List.replicate 16 1) (List.replicate 16 2)
    ⟨0, 0, 0, 0⟩ ⟨16843009, 16843009, 16843009, 16843009⟩
    ⟨33686018, 33686018, 33686018, 33686018⟩ []
    rfl rfl rfl).2.1

/-- Claim C8: the wire image of a record is exactly 16 bytes — the four
float32 fields in the order timestamp, pack_voltage, pack_current,
cell_temperature, each as four bytes least-significant first
(little-endian), with nothing else (no header, length prefix, checksum
or version tag) — and `decode` reads the same fields back from the same
positions. -/
theorem wire_format_layout (r : TelemetryRecord) (h : ValidRecord r) :
    (encode r).length = 16 ∧
    encode r =
      [r.timestamp % 256, r.timestamp / 256 % 256,
       r.timestamp / 65536 % 256, r.timestamp / 16777216 % 256,
       r.pack_voltage % 256, r.pack_voltage / 256 % 256,
       r.pack_voltage / 65536 % 256, r.pack_voltage / 16777216 % 256,
       r.pack_current % 256, r.pack_current / 256 % 256,
       r.pack_current / 65536 % 256, r.pack_current / 16777216 % 256,
       r.cell_temperature % 256, r.cell_temperature / 256 % 256,
       r.cell_temperature / 65536 % 256,
       r.cell_temperature / 16777216 % 256] ∧
    leWord ((encode r).take 4) = r.timestamp ∧
    leWord (((encode r).drop 4).take 4) = r.pack_voltage ∧
    leWord (((encode r).drop 8).take 4) = r.pack_current ∧
    leWord (((encode r).drop 12).take 4) = r.cell_temperature ∧
    decode (encode r) = Except.ok r := by
  obtain ⟨t, v, i, c⟩ := r
  obtain ⟨h1, h2, h3, h4⟩ := h
  have ht1 : t < 4294967296 := h1
  have ht2 : v < 4294967296 := h2
  have ht3 : i < 4294967296 := h3
  have ht4 : c < 4294967296 := h4
  refine ⟨?_, encode_eq_list _, ?_, ?_, ?_, ?_,
    decode_encode ⟨t, v, i, c⟩ ⟨h1, h2, h3, h4⟩⟩ <;>
    rw [encode_eq_list] <;>
    simp only [List.length, List.take, List.drop, leWord, List.foldr] <;>
    omega

/-- Witness for C8 at a concrete record. -/
theorem wire_format_layout_witness :
    (encode ⟨1, 2, 3, 4⟩).length = 16 ∧
    encode ⟨1, 2, 3, 4⟩ =
      [1, 0, 0, 0, 2, 0, 0, 0, 3, 0, 0, 0, 4, 0, 0, 0] ∧
    leWord ((encode ⟨1, 2, 3, 4⟩).take 4) = 1 ∧
    leWord (((encode ⟨1, 2, 3, 4⟩).drop 4).take 4) = 2 ∧
    leWord (((encode ⟨1, 2, 3, 4⟩).drop 8).take 4) = 3 ∧
    leWord (((encode ⟨1, 2, 3, 4⟩).drop 12).take 4) = 4 ∧
    decode (encode ⟨1, 2, 3, 4⟩) = Except.ok ⟨1, 2, 3, 4⟩ :=
  wire_format_layout ⟨1, 2, 3, 4⟩ (by decide)

/-- The JSON body `receive_battery_data` accepts in
`client/api/index.py`: the pydantic `BatteryData` model.  Numeric
fields are exact rationals standing for the float values. -/
structure BatteryData where
  timestamp : ℚ
  pack_voltage : ℚ
  pack_current : ℚ
  cell_temp : ℚ
  source : String
deriving DecidableEq

/-- One stored document of the `battery_telemetry` collection: the
five fields of the reading plus the server-side `received_at`
timestamp. -/
structure TelemetryDoc where
  timestamp : ℚ
  pack_voltage : ℚ
  pack_current : ℚ
  cell_temp : ℚ
  source : String
  received_at : ℚ
deriving DecidableEq

/-- `insert_telemetry` in `client/api/database.py`: one
`insert_one` call appending a single document (the entry handed over
already carries `received_at`, so the fallback branch adding one is not
taken). -/
def insert_telemetry (db : List TelemetryDoc) (doc : TelemetryDoc) :
    List TelemetryDoc :=
  db ++ [doc]

/-- What the endpoint answers: the success body, or an
`HTTPException`. -/
inductive ApiResult where
  | ok (message : String) (received_at : ℚ) (data : BatteryData)
  | httpError (status : Nat) (detail : String)
deriving DecidableEq

/-- `receive_battery_data` in `client/api/index.py`: rejects with
status 400 before touching the database when any of the four range
checks fires; otherwise builds the telemetry entry with `received_at`
set to the server clock `now`, stores it through `insert_telemetry`,
and answers 200.  The pair is the database state after the call and
the HTTP outcome. -/
def receive_battery_data (now : ℚ) (db : List TelemetryDoc)
    (data : BatteryData) : List TelemetryDoc × ApiResult :=
  if data.pack_voltage < 0 ∨ data.pack_current < -1000 ∨
      data.cell_temp < -50 ∨ data.cell_temp > 100 then
    (db, ApiResult.httpError 400 "Invalid battery data values")
  else
    (insert_telemetry db
      { timestamp := data.timestamp
      , pack_voltage := data.pack_voltage
      , pack_current := data.pack_current
      , cell_temp := data.cell_temp
      , source := data.source
      , received_at := now },
     ApiResult.ok "Data received and stored successfully" now data)

/-- Claim C10: a reading with `pack_voltage < 0`, `pack_current <
-1000`, `cell_temp < -50` or `cell_temp > 100` is rejected with status
400 and the database is unchanged; any other reading is stored as
exactly one new document, which carries `received_at` (the server
clock). -/
theorem receive_battery_data_validation (now : ℚ)
    (db : List TelemetryDoc) (data : BatteryData) :
    ((data.pack_voltage < 0 ∨ data.pack_current < -1000 ∨
      data.cell_temp < -50 ∨ data.cell_temp > 100) →
      receive_battery_data now db data =
        (db, ApiResult.httpError 400 "Invalid battery data values")) ∧
    (¬(data.pack_voltage < 0 ∨ data.pack_current < -1000 ∨
       data.cell_temp < -50 ∨ data.cell_temp > 100) →
      receive_battery_data now db data =
        (db ++ [{ timestamp := data.timestamp
                , pack_voltage := data.pack_voltage
                , pack_current := data.pack_current
                , cell_temp := data.cell_temp
                , source := data.source
                , received_at := now }],
         ApiResult.ok "Data received and stored successfully" now data) ∧
      (receive_battery_data now db data).1.length = db.length + 1) := by
  constructor
  · intro hbad
    simp [receive_battery_data, hbad]
  · intro hgood
    refine ⟨by simp [receive_battery_data, insert_telemetry, hgood], ?_⟩
    simp [receive_battery_data, insert_telemetry, hgood]

/-- Witness for C10: a negative-voltage reading is rejected with the
database untouched; a nominal reading is stored as one document with
`received_at`. -/
theorem receive_battery_data_validation_witness :
    receive_battery_data 7 [] ⟨0, -1, 25, 25, "Module"⟩ =
      ([], ApiResult.httpError 400 "Invalid battery data values") ∧
    receive_battery_data 7 [] ⟨0, 1776 / 5, 25, 25, "Module"⟩ =
      ([{ timestamp := 0, pack_voltage := 1776 / 5, pack_current := 25
        , cell_temp := 25, source := "Module", received_at := 7 }],
       ApiResult.ok "Data received and stored successfully" 7
         ⟨0, 1776 / 5, 25, 25, "Module"⟩) ∧
    (receive_battery_data 7 [] ⟨0, 1776 / 5, 25, 25, "Module"⟩).1.length =
      1 :=
  ⟨(receive_battery_data_validation 7 []
      ⟨0, -1, 25, 25, "Module"⟩).1 (by norm_num),
   ((receive_battery_data_validation 7 []
      ⟨0, 1776 / 5, 25, 25, "Module"⟩).2 (by norm_num)).1,
   ((receive_battery_data_validation 7 []
      ⟨0, 1776 / 5, 25, 25, "Module"⟩).2 (by norm_num)).2⟩

end BatteryTelemetry
